import Mathlib

/-!
Shallow embedding of `django_libsql/db/backends/sqlite3/base.py`, the libSQL
database backend shim for Django.  Strings are modelled as Lean `String`s or
`List Char`; Python `dict` key presence is modelled with `Option`; Python
exceptions are modelled with `Except`.  Python truthiness of a string is
"nonempty", of `None` is false, of a list is "nonempty".
-/

deriving instance DecidableEq for Except

namespace DjangoLibsql

/-- Python `s.startswith(p)` on strings (single prefix). -/
def pyStartsWith (s p : String) : Bool :=
  p.toList.isPrefixOf s.toList

/-- Python `db_name.startswith(("libsql://", "http://", "https://", "ws://", "wss://"))`:
the remote-protocol prefix test used by `DatabaseWrapper.get_connection_params`
and `LibSQLConnection.__init__`. -/
def isRemoteURL (s : String) : Bool :=
  pyStartsWith s "libsql://" || pyStartsWith s "http://" || pyStartsWith s "https://" ||
    pyStartsWith s "ws://" || pyStartsWith s "wss://"

/-- Truthiness of an optional Python string: `None` and `""` are falsy. -/
def truthyOptStr : Option String → Bool
  | none => false
  | some s => s ≠ ""

/-- ASCII whitespace, as stripped by Python `str.strip()`. -/
def isSpaceB (c : Char) : Bool :=
  c = ' ' || c = '\t' || c = '\n' || c = '\x0d' || c = '\x0b' || c = '\x0c'

/-- Python `str.strip()` (both ends). -/
def pyStrip (s : List Char) : List Char :=
  ((s.dropWhile isSpaceB).reverse.dropWhile isSpaceB).reverse

/-- Python `str.upper()` (ASCII letters). -/
def pyUpper (s : List Char) : List Char :=
  s.map Char.toUpper

/-!
Parameter-style translation (`SQLiteCursorWrapper.convert_query`, `FORMAT_QMARK_REGEX`)

`FORMAT_QMARK_REGEX = re.compile(r"(?<!%)%s")` and, for positional params,
`convert_query` returns `FORMAT_QMARK_REGEX.sub("?", query).replace("%%", "%")`.
-/

/-- One left-to-right pass of `re.sub` for the pattern `(?<!%)%s`, replacing each
match with `?`.  The boolean argument records whether the character of the
original string just before the current position is `%` (the negative
lookbehind); it is `false` at the start of the string. -/
def format_qmark_sub : Bool → List Char → List Char
  | _, [] => []
  | _, [c] => [c]
  | prevPct, c :: c2 :: rest =>
      if c = '%' then
        if c2 = 's' then
          if prevPct then c :: format_qmark_sub true (c2 :: rest)
          else '?' :: format_qmark_sub false rest
        else c :: format_qmark_sub true (c2 :: rest)
      else c :: format_qmark_sub false (c2 :: rest)

/-- Python `str.replace("%%", "%")`: scan left to right; at each position, if
the next two characters are `%%` emit one `%` and skip both, else emit the
character and move on. -/
def replace_double_percent : List Char → List Char
  | [] => []
  | [c] => [c]
  | c :: c2 :: rest =>
      if c = '%' then
        if c2 = '%' then '%' :: replace_double_percent rest
        else c :: replace_double_percent (c2 :: rest)
      else c :: replace_double_percent (c2 :: rest)

/-- Models `SQLiteCursorWrapper.convert_query(query, param_names=None)`: the
"format" to "qmark" conversion. -/
def convert_query (q : List Char) : List Char :=
  replace_double_percent (format_qmark_sub false q)

/-- Every `%` in the string occurs only inside an escaped placeholder `%%`
(scanning left to right, `%` characters pair up and a lone `%` never precedes
anything but a pairing `%`). -/
def onlyEscapedPercents : List Char → Bool
  | [] => true
  | [c] => c ≠ '%'
  | c :: c2 :: rest =>
      if c = '%' then
        if c2 = '%' then onlyEscapedPercents rest else false
      else onlyEscapedPercents (c2 :: rest)

/-!
Connection-parameter derivation (`DatabaseWrapper.get_connection_params`)
-/

/-- The fields of the Django `settings_dict` used by `get_connection_params`:
`NAME`, the `OPTIONS` sub-dictionary, and the injected `_turso_url` /
`_turso_auth_token` keys.  `none` for an `opt_*` field means the key is absent
from `OPTIONS`.  The isolation level option is tri-valued: absent, present with
value `None` (`some none`), or present with a string (`some (some s)`).
`timeout`, `check_same_thread`, `detect_types` and `uri` only feed
compatibility fields ignored by `LibSQLConnection.__init__` and are not
modelled. -/
structure Settings where
  name : String
  opt_auth_token : Option String
  opt_authToken : Option String
  opt_sync_url : Option String
  opt_local_file : Option String
  opt_encryption_key : Option String
  opt_isolation_level : Option (Option String)
deriving DecidableEq

/-- The `_turso_url` / `_turso_auth_token` keys injected into `settings_dict`
by the turso app (`none` = key absent). -/
structure TursoKeys where
  turso_url : Option String
  turso_auth_token : Option String
deriving DecidableEq

/-- The keyword arguments produced by `get_connection_params` and consumed by
`LibSQLConnection.__init__` (via `Database.connect`).  `none` means the key is
absent.  `isolation_level` carries an `Option String` value because Python
code may store `None` under the key. -/
structure ConnKwargs where
  database : Option String
  auth_token : Option String
  sync_url : Option String
  encryption_key : Option String
  isolation_level : Option (Option String)
  turso_url : Option String
  turso_auth_token : Option String
  local_file : Option String
deriving DecidableEq

/-- Models `DatabaseWrapper.get_connection_params`.  Raises `ImproperlyConfigured`
(modelled as `Except.error ()`) when `NAME` is falsy; otherwise builds the
kwargs dictionary step by step exactly as the source does. -/
def get_connection_params (s : Settings) (t : TursoKeys) : Except Unit ConnKwargs :=
  if s.name = "" then Except.error () else
  let db_name := s.name
  let remote := isRemoteURL db_name
  let k0 : ConnKwargs :=
    { database := some db_name, auth_token := none, sync_url := none,
      encryption_key := none, isolation_level := none,
      turso_url := none, turso_auth_token := none, local_file := none }
  -- Remote database: forward the auth token from OPTIONS ('auth_token' wins
  -- over 'authToken').
  let k1 := if remote then
      { k0 with auth_token :=
          match s.opt_auth_token with
          | some tok => some tok
          | none => s.opt_authToken }
    else k0
  -- Embedded replica: a sync_url option plus a remote NAME relocates the
  -- remote URL into sync_url and uses a local file as the database.
  let k2 :=
    match s.opt_sync_url with
    | some su =>
        if remote then
          { k1 with database := some ((s.opt_local_file).getD "local.db"),
                    sync_url := some db_name }
        else { k1 with sync_url := some su }
    | none => k1
  let k3 :=
    match s.opt_encryption_key with
    | some ek => { k2 with encryption_key := some ek }
    | none => k2
  -- Isolation level: the OPTIONS value when the key is present, else "DEFERRED".
  let level : Option String :=
    match s.opt_isolation_level with
    | some v => v
    | none => some "DEFERRED"
  let k4 := { k3 with isolation_level := some level }
  Except.ok { k4 with turso_url := t.turso_url, turso_auth_token := t.turso_auth_token }

/-!
The class `LibSQLConnection`: isolation level and client parameters
-/

/-- Models `self._isolation_level = kwargs.get('isolation_level', '')`: the
connection's stored isolation level (`none` models Python `None`, i.e.
autocommit; any string, including `""`, is manual-transaction mode). -/
def init_isolation_level (k : ConnKwargs) : Option String :=
  match k.isolation_level with
  | none => some ""
  | some v => v

/-- The connection is in autocommit mode exactly when its stored isolation
level is `None` (see `commit`/`rollback` and `LibSQLCursor.execute`). -/
def isAutocommit (level : Option String) : Bool :=
  level.isNone

/-- First value assigned to `key` by the query string (`parse_qs(query)[key][0]`),
for query strings without percent-escapes: fields are split on `&`, a field
contributes only when it has the shape `k=v` with `v` nonempty. -/
def parse_qs_first (key : String) (query : List Char) : Option String :=
  ((query.splitOn '&').filterMap (fun f =>
      let k := f.takeWhile (fun c => c ≠ '=')
      if k.length < f.length then
        let v := f.drop (k.length + 1)
        if v = [] then none
        else if k = key.toList then some (String.mk v) else none
      else none)).head?

/-- The `libsql://` handling in `LibSQLConnection.__init__`: `urlparse` the
URL (netloc up to `/`, `?` or `#`; path up to `?` or `#`; query after `?`),
rewrite `libsql://netloc path` to `https://netloc path` when the netloc is
nonempty, and take `authToken` from the query string when present.  Returns
the new `(self.database, self.auth_token)` pair. -/
def libsql_rewrite (db tok : String) : String × String :=
  let rest := (db.toList).drop 9
  let netloc := rest.takeWhile (fun c => c ≠ '/' && c ≠ '?' && c ≠ '#')
  let after := rest.drop netloc.length
  let path := after.takeWhile (fun c => c ≠ '?' && c ≠ '#')
  let afterPath := after.drop path.length
  let query := match afterPath with
    | '?' :: q => q.takeWhile (fun c => c ≠ '#')
    | _ => []
  let db' := if netloc ≠ [] then "https://" ++ String.mk netloc ++ String.mk path else db
  let tok' := match parse_qs_first "authToken" query with
    | some tk => tk
    | none => tok
  (db', tok')

/-- The `conn_params` dictionary passed to `libsql.connect` (`none` = key
absent). -/
structure ClientParams where
  database : String
  auth_token : Option String
  sync_url : Option String
  encryption_key : Option String
deriving DecidableEq

/-- The derivation of `conn_params` inside `LibSQLConnection.__init__`:
defaults from `kwargs`, the `libsql://` rewrite, the connection-type branch,
the sync-URL branch, the encryption key, and finally the `_turso_url`
override. -/
def conn_client_params (k : ConnKwargs) : ClientParams :=
  let database0 := k.database.getD ":memory:"
  let auth0 := k.auth_token.getD ""
  let p := if pyStartsWith database0 "libsql://" then libsql_rewrite database0 auth0
           else (database0, auth0)
  let database1 := p.1
  let auth1 := p.2
  let cp0 : ClientParams :=
    { database := database1,
      auth_token :=
        if database1 = ":memory:" || pyStartsWith database1 "file:" then none
        else if pyStartsWith database1 "http://" || pyStartsWith database1 "https://" ||
                pyStartsWith database1 "ws://" || pyStartsWith database1 "wss://" then
          (if auth1 ≠ "" then some auth1 else none)
        else none,
      sync_url := none, encryption_key := none }
  let cp1 := if truthyOptStr k.sync_url then
      { cp0 with sync_url := k.sync_url,
                 auth_token := if auth1 ≠ "" then some auth1 else cp0.auth_token }
    else cp0
  let cp2 := if truthyOptStr k.encryption_key then
      { cp1 with encryption_key := k.encryption_key }
    else cp1
  match k.turso_url with
  | some u =>
      { cp2 with database := k.local_file.getD "local.db",
                 sync_url := some u,
                 auth_token :=
                   match k.turso_auth_token with
                   | some tk => some tk
                   | none => cp2.auth_token }
  | none => cp2

/-!
Transaction state (`LibSQLConnection.commit` / `rollback`)

The underlying libsql client connection is opaque to the shim; the shim only
reads its `in_transaction` property.  We model the client as a record holding
that property and leave the effect of `self._connection.commit()` /
`rollback()` as a function parameter, so the theorems hold for every possible
client behaviour.
-/

/-- The observable state of the underlying libsql client connection. -/
structure Client where
  in_transaction : Bool
deriving DecidableEq

/-- The observable state of a `LibSQLConnection` wrapper: `_isolation_level`
(`none` = Python `None` = autocommit), the underlying client, and the
tracked `_in_transaction` flag. -/
structure LibSQLConn where
  isolation_level : Option String
  client : Client
  in_transaction_flag : Bool
deriving DecidableEq

/-- Models `LibSQLConnection.commit`: when not in autocommit mode, call the client's
commit (`clientCommit`) and re-read `in_transaction`; otherwise do nothing. -/
def conn_commit (clientCommit : Client → Client) (s : LibSQLConn) : LibSQLConn :=
  if s.isolation_level ≠ none then
    let c := clientCommit s.client
    { s with client := c, in_transaction_flag := c.in_transaction }
  else s

/-- Models `LibSQLConnection.rollback`: when not in autocommit mode, call the
client's rollback (`clientRollback`) and re-read `in_transaction`; otherwise
do nothing. -/
def conn_rollback (clientRollback : Client → Client) (s : LibSQLConn) : LibSQLConn :=
  if s.isolation_level ≠ none then
    let c := clientRollback s.client
    { s with client := c, in_transaction_flag := c.in_transaction }
  else s

/-!
Cursor statement execution (`LibSQLCursor.execute`, `_is_dml`)
-/

/-- Models `LibSQLCursor._is_dml`: `sql.strip().upper()` starts with one of
`INSERT`, `UPDATE`, `DELETE`, `REPLACE`. -/
def is_dml (sql : List Char) : Bool :=
  let u := pyUpper (pyStrip sql)
  "INSERT".toList.isPrefixOf u || "UPDATE".toList.isPrefixOf u ||
    "DELETE".toList.isPrefixOf u || "REPLACE".toList.isPrefixOf u

/-- The sequence of SQL statements `LibSQLCursor.execute` issues on the
underlying cursor for one call: a `"BEGIN"` is prepended exactly when the
connection's isolation level is not `None`, the client reports no active
transaction, and the statement is DML. -/
def execute_stmts (isolation_level : Option String) (client_in_transaction : Bool)
    (sql : List Char) : List (List Char) :=
  if isolation_level.isSome && !client_in_transaction && is_dml sql then
    ["BEGIN".toList, sql]
  else [sql]

/-!
Type adaptation and conversion (`_adapt_params`, `_convert_row`, fetches)

Python values appearing as SQL parameters / column values are modelled by
`PyVal`; `type(param)` is modelled by `PyVal.ty`.  A registered adapter or
converter is an arbitrary function that may raise (`Except.error`).
-/

/-- A Python value as seen by the shim (enough constructors to distinguish
`None`, and to give values distinct types for the adapter registry). -/
inductive PyVal where
  | vnone : PyVal
  | vint : Int → PyVal
  | vstr : String → PyVal
  | vbool : Bool → PyVal
deriving DecidableEq

/-- The Python type of a value (`type(param)`). -/
inductive PyType where
  | tnone : PyType
  | tint : PyType
  | tstr : PyType
  | tbool : PyType
deriving DecidableEq

/-- Models `type(param)` for a `PyVal`. -/
def PyVal.ty : PyVal → PyType
  | .vnone => .tnone
  | .vint _ => .tint
  | .vstr _ => .tstr
  | .vbool _ => .tbool

/-- An adapter or converter: a Python callable that may raise. -/
def PyFun : Type := PyVal → Except String PyVal

/-- The adapter registry `LibSQLDatabase._adapters`, keyed by Python type. -/
def AdapterTable : Type := List (PyType × PyFun)

/-- The converter registry `LibSQLDatabase._converters`, keyed by type name. -/
def ConverterTable : Type := List (String × PyFun)

/-- Looks up `adapters[type(param)]` when registered. -/
def find_adapter (adapters : AdapterTable) (p : PyVal) : Option PyFun :=
  (adapters.find? (fun e => e.1 = p.ty)).map (fun e => e.2)

/-- One parameter in `LibSQLCursor._adapt_params`: apply the registered
adapter for the parameter's type, if any.  The adapter call is NOT wrapped in
a `try`/`except`, so an exception propagates. -/
def adapt_param (adapters : AdapterTable) (p : PyVal) : Except String PyVal :=
  match find_adapter adapters p with
  | some f => f p
  | none => Except.ok p

/-- Models `LibSQLCursor._adapt_params` on a positional parameter list: adapt each
parameter in order; the first exception aborts the whole call. -/
def adapt_params (adapters : AdapterTable) (ps : List PyVal) :
    Except String (List PyVal) :=
  ps.mapM (adapt_param adapters)

/-- The adapter step inside `LibSQLCursor.execute`: `if params: params =
self._adapt_params(params)` (an empty parameter list is falsy and skipped). -/
def execute_adapt (adapters : AdapterTable) (ps : List PyVal) :
    Except String (List PyVal) :=
  if ps = [] then Except.ok ps else adapt_params adapters ps

/-- Python `needle in hay` on character lists (Python substring test). -/
def substrOf (needle hay : List Char) : Bool :=
  hay.tails.any (fun t => needle.isPrefixOf t)

/-- Python `str.lower()` (ASCII letters), as a character list. -/
def toLowerL (s : String) : List Char :=
  s.toList.map Char.toLower

/-- The converter selection in `LibSQLCursor._convert_row`: the first
registered `(typename, converter)` with `f"[{typename}]" in col_name.lower()`
or `typename in col_name.lower()`. -/
def find_converter (convs : ConverterTable) (colName : String) : Option PyFun :=
  (convs.find? (fun e =>
      substrOf ("[" ++ e.1 ++ "]").toList (toLowerL colName) ||
        substrOf e.1.toList (toLowerL colName))).map (fun e => e.2)

/-- One column value in `LibSQLCursor._convert_row`: when the value is not
`None` and the column description is truthy, apply the matching converter
inside `try`/`except: pass` — a raising converter leaves the value as is. -/
def convert_value (convs : ConverterTable) (colName : String) (v : PyVal) : PyVal :=
  if v ≠ PyVal.vnone ∧ colName ≠ "" then
    match find_converter convs colName with
    | some f =>
        match f v with
        | Except.ok w => w
        | Except.error _ => v
    | none => v
  else v

/-- Models `LibSQLCursor._convert_row`: when the description is `None` or empty
(falsy) the row is returned untouched; otherwise each value is converted
along `zip(self.description, row)`.  Descriptions are modelled by their
column names (`col_desc[0]`). -/
def convert_row (convs : ConverterTable) (desc : Option (List String))
    (row : List PyVal) : List PyVal :=
  match desc with
  | none => row
  | some [] => row
  | some ds => (ds.zip row).map (fun dv => convert_value convs dv.1 dv.2)

/-- Models `LibSQLCursor.fetchone` over the remaining underlying rows: pop the next
row; a truthy row is converted, a falsy one (`None`, or an empty tuple) is
returned as is.  Returns the fetched row and the remaining stream. -/
def fetchone (convs : ConverterTable) (desc : Option (List String)) :
    List (List PyVal) → Option (List PyVal) × List (List PyVal)
  | [] => (none, [])
  | r :: rest =>
      ((if r = [] then some r else some (convert_row convs desc r)), rest)

/-- Models `LibSQLCursor.fetchmany(size)`: call `fetchone` up to `size` times,
stopping early when it returns `None`.  Returns the collected rows and the
remaining stream. -/
def fetchmany (convs : ConverterTable) (desc : Option (List String)) :
    Nat → List (List PyVal) → List (List PyVal) × List (List PyVal)
  | 0, rows => ([], rows)
  | n + 1, rows =>
      match fetchone convs desc rows with
      | (none, rest) => ([], rest)
      | (some r, rest) =>
          let p := fetchmany convs desc n rest
          (r :: p.1, p.2)

/-- The initialisation `self.arraysize = 100` in `LibSQLCursor.__init__`. -/
def cursor_init_arraysize : Nat := 100

/-- Models `LibSQLCursor.fetchmany()` with no size argument: it uses `self.arraysize`. -/
def fetchmany_default (convs : ConverterTable) (desc : Option (List String))
    (rows : List (List PyVal)) : List (List PyVal) × List (List PyVal) :=
  fetchmany convs desc cursor_init_arraysize rows

/-!
Concrete inputs used by witnesses and counterexamples.
-/

/-- No injected turso credentials. -/
def no_turso : TursoKeys := { turso_url := none, turso_auth_token := none }

/-- A plain local-file configuration whose OPTIONS omit `isolation_level`. -/
def c1_settings : Settings :=
  { name := "test.db", opt_auth_token := none, opt_authToken := none,
    opt_sync_url := none, opt_local_file := none, opt_encryption_key := none,
    opt_isolation_level := none }

/-- A configuration whose OPTIONS set `isolation_level` to the empty string. -/
def c1_manual_settings : Settings :=
  { name := "test.db", opt_auth_token := none, opt_authToken := none,
    opt_sync_url := none, opt_local_file := none, opt_encryption_key := none,
    opt_isolation_level := some (some "") }

/-- A remote NAME with a `sync_url` option (embedded-replica configuration). -/
def c3_settings : Settings :=
  { name := "libsql://db.example.com", opt_auth_token := none, opt_authToken := none,
    opt_sync_url := some "https://sync.example.com", opt_local_file := none,
    opt_encryption_key := none, opt_isolation_level := none }

/-- A remote NAME with an auth token and no `sync_url` option. -/
def c4_settings : Settings :=
  { name := "https://db.example.com", opt_auth_token := some "tok", opt_authToken := none,
    opt_sync_url := none, opt_local_file := none, opt_encryption_key := none,
    opt_isolation_level := none }

/-- A wrapper state in autocommit mode whose client is inside a transaction
while the tracked flag is `False`; such a state is reached by
`_start_transaction_under_autocommit` (whose `BEGIN` goes through
`LibSQLCursor.execute` without updating the flag). -/
def c6_conn : LibSQLConn :=
  { isolation_level := none, client := { in_transaction := true },
    in_transaction_flag := false }

/-- The same divergent autocommit-mode state, for the C8 counterexample. -/
def c8_conn : LibSQLConn :=
  { isolation_level := none, client := { in_transaction := true },
    in_transaction_flag := false }

/-- A wrapper state in manual-transaction mode. -/
def c8_manual_conn : LibSQLConn :=
  { isolation_level := some "", client := { in_transaction := true },
    in_transaction_flag := true }

/-- An adapter registry whose adapter for `int` raises. -/
def c7_adapters : AdapterTable :=
  [(PyType.tint, fun _ => Except.error "adapter failed")]

/-- A converter registry whose converter for typename `date` raises. -/
def c7_converters : ConverterTable :=
  [("date", fun _ => Except.error "converter failed")]

/-- Keyword arguments carrying injected turso credentials. -/
def c9_kwargs : ConnKwargs :=
  { database := some "libsql://remote.example.com", auth_token := some "orig",
    sync_url := none, encryption_key := none,
    isolation_level := some (some "DEFERRED"),
    turso_url := some "libsql://replica.example.com",
    turso_auth_token := some "tok2", local_file := none }

/-!
Helper lemmas shared by the claim theorems.
-/

/-- A string with a remote-protocol prefix is nonempty (not falsy). -/
theorem name_ne_of_remote {s : String} (h : isRemoteURL s = true) : s ≠ "" := by
  intro he
  subst he
  exact absurd h (by decide)

/-- With the lookbehind flag set, a `%` is copied verbatim by the
`(?<!%)%s` substitution pass. -/
theorem format_qmark_sub_pct (q : List Char) :
    format_qmark_sub true ('%' :: q) = '%' :: format_qmark_sub true q := by
  cases q with
  | nil => rfl
  | cons r rs => by_cases hr : r = 's' <;> simp [format_qmark_sub, hr]

/-- On a query whose `%` characters all sit inside `%%` pairs, the
`(?<!%)%s` substitution pass is the identity. -/
theorem format_qmark_sub_of_onlyEscaped :
    ∀ (q : List Char), onlyEscapedPercents q = true → ∀ (b : Bool),
      format_qmark_sub b q = q := by
  have H : ∀ (n : Nat) (q : List Char), q.length ≤ n →
      onlyEscapedPercents q = true → ∀ (b : Bool), format_qmark_sub b q = q := by
    intro n
    induction n with
    | zero =>
        intro q hl _ b
        cases q with
        | nil => rfl
        | cons c rest => simp at hl
    | succ n ih =>
        intro q hl hq b
        match q with
        | [] => rfl
        | [c] => rfl
        | c :: c2 :: rest =>
            by_cases hc : c = '%'
            · subst hc
              by_cases hc2 : c2 = '%'
              · subst hc2
                have hrest : onlyEscapedPercents rest = true := by
                  simpa [onlyEscapedPercents] using hq
                have hlen : rest.length ≤ n := by simp at hl; omega
                have step : format_qmark_sub b ('%' :: '%' :: rest) =
                    '%' :: format_qmark_sub true ('%' :: rest) := by
                  simp [format_qmark_sub]
                rw [step, format_qmark_sub_pct, ih rest hlen hrest true]
              · exfalso
                simp [onlyEscapedPercents, hc2] at hq
            · have hrest : onlyEscapedPercents (c2 :: rest) = true := by
                simpa [onlyEscapedPercents, hc] using hq
              have hlen : (c2 :: rest).length ≤ n := by
                simp at hl ⊢
                omega
              simp [format_qmark_sub, hc, ih (c2 :: rest) hlen hrest false]
  intro q hq b
  exact H q.length q (Nat.le_refl _) hq b

/-- Number of rows collected by `fetchmany`: the requested size capped by the
remaining stream length. -/
theorem fetchmany_length (convs : ConverterTable) (desc : Option (List String)) :
    ∀ (n : Nat) (rows : List (List PyVal)),
      ((fetchmany convs desc n rows).1).length = min n rows.length := by
  intro n
  induction n with
  | zero => intro rows; simp [fetchmany]
  | succ n ih =>
      intro rows
      cases rows with
      | nil => simp [fetchmany, fetchone]
      | cons r rest =>
          by_cases hr : r = [] <;>
            simp [fetchmany, fetchone, hr, ih] <;> omega

/-!
Claim theorems.
-/

/-- C1 (counterexample): for a configuration mapping with no
`isolation_level` option the derived connection parameters do NOT select
autocommit mode: `get_connection_params` sets the isolation level to
`"DEFERRED"` and the resulting connection is in manual-transaction mode. -/
theorem C1_counterexample :
    (get_connection_params c1_settings no_turso).map
        (fun k => (k.isolation_level, isAutocommit (init_isolation_level k))) =
      Except.ok (some (some "DEFERRED"), false) := by decide

/-- C1 (amended): the transaction mode is keyed by the tri-valued isolation
level: an OPTIONS value of `None` yields autocommit mode; any string value
(in particular `""`) yields manual mode; and when the option is omitted the
derived parameters set the level to `"DEFERRED"`, which is manual mode, not
autocommit. -/
theorem C1_isolation_tri_valued (s : Settings) (t : TursoKeys) (h : s.name ≠ "") :
    (s.opt_isolation_level = none →
      (get_connection_params s t).map
          (fun k => (k.isolation_level, isAutocommit (init_isolation_level k))) =
        Except.ok (some (some "DEFERRED"), false)) ∧
    (s.opt_isolation_level = some none →
      (get_connection_params s t).map
          (fun k => isAutocommit (init_isolation_level k)) = Except.ok true) ∧
    (∀ lv, s.opt_isolation_level = some (some lv) →
      (get_connection_params s t).map
          (fun k => (init_isolation_level k, isAutocommit (init_isolation_level k))) =
        Except.ok (some lv, false)) := by
  refine ⟨?_, ?_, ?_⟩
  · intro hiso
    simp [get_connection_params, Except.map, h, hiso, init_isolation_level, isAutocommit]
  · intro hiso
    simp [get_connection_params, Except.map, h, hiso, init_isolation_level, isAutocommit]
  · intro lv hiso
    simp [get_connection_params, Except.map, h, hiso, init_isolation_level, isAutocommit]

/-- C1 (witness): an empty-string isolation level in OPTIONS puts the
connection in manual mode. -/
theorem C1_witness :
    (get_connection_params c1_manual_settings no_turso).map
        (fun k => (init_isolation_level k, isAutocommit (init_isolation_level k))) =
      Except.ok (some "", false) :=
  (C1_isolation_tri_valued c1_manual_settings no_turso (by decide)).2.2 "" rfl

/-- C2 (counterexample): a query in which every `%` occurs only inside an
escaped placeholder `%%` is NOT returned unchanged by the format-to-qmark
conversion: `"a%%b"` becomes `"a%b"`. -/
theorem C2_counterexample :
    onlyEscapedPercents "a%%b".toList = true ∧
    convert_query "a%%b".toList ≠ "a%%b".toList := by decide

/-- C2 (amended): on a query in which every `%` occurs only inside escaped
placeholders `%%`, the format-to-qmark conversion introduces no `?` and
returns the query with each `%%` collapsed to a single literal `%`. -/
theorem C2_escaped_placeholders_collapse (q : List Char)
    (h : onlyEscapedPercents q = true) :
    convert_query q = replace_double_percent q := by
  unfold convert_query
  rw [format_qmark_sub_of_onlyEscaped q h false]

/-- C2 (witness): the amended statement evaluated on `"a%%b"`. -/
theorem C2_witness :
    onlyEscapedPercents "a%%b".toList = true ∧
    convert_query "a%%b".toList = replace_double_percent "a%%b".toList :=
  ⟨by decide, C2_escaped_placeholders_collapse "a%%b".toList (by decide)⟩

/-- C3: for a settings mapping whose NAME has a remote-protocol prefix and
whose OPTIONS contain `sync_url`, `get_connection_params` selects local-file
mode: `database` becomes the `local_file` option (default `"local.db"`) and
`sync_url` becomes the remote NAME URL. -/
theorem C3_remote_sync_selects_local_file (s : Settings) (t : TursoKeys) (su : String)
    (hrem : isRemoteURL s.name = true) (hsync : s.opt_sync_url = some su) :
    (get_connection_params s t).map (fun k => (k.database, k.sync_url)) =
      Except.ok (some ((s.opt_local_file).getD "local.db"), some s.name) := by
  have hne : s.name ≠ "" := name_ne_of_remote hrem
  rcases henc : s.opt_encryption_key with _ | ek <;>
    simp [get_connection_params, Except.map, hne, hrem, hsync, henc]

/-- C3 (witness): a remote NAME and a `sync_url` option with no `local_file`
option yield `database = "local.db"` and `sync_url` = the NAME. -/
theorem C3_witness :
    (get_connection_params c3_settings no_turso).map (fun k => (k.database, k.sync_url)) =
      Except.ok (some "local.db", some "libsql://db.example.com") :=
  C3_remote_sync_selects_local_file c3_settings no_turso "https://sync.example.com"
    (by decide) rfl

/-- C4: for a settings mapping whose NAME has a remote-protocol prefix and
whose OPTIONS contain no `sync_url`, remote mode is selected (`database` is
the remote NAME URL) and an auth token present in OPTIONS under `auth_token`
(or, failing that, `authToken`) is forwarded unchanged as the `auth_token`
connection parameter. -/
theorem C4_remote_mode_auth_forwarded (s : Settings) (t : TursoKeys)
    (hrem : isRemoteURL s.name = true) (hsync : s.opt_sync_url = none) :
    (get_connection_params s t).map (fun k => k.database) = Except.ok (some s.name) ∧
    (∀ tok, s.opt_auth_token = some tok →
      (get_connection_params s t).map (fun k => k.auth_token) = Except.ok (some tok)) ∧
    (s.opt_auth_token = none → ∀ tok, s.opt_authToken = some tok →
      (get_connection_params s t).map (fun k => k.auth_token) = Except.ok (some tok)) := by
  have hne : s.name ≠ "" := name_ne_of_remote hrem
  refine ⟨?_, ?_, ?_⟩
  · rcases henc : s.opt_encryption_key with _ | ek <;>
      simp [get_connection_params, Except.map, hne, hrem, hsync, henc]
  · intro tok htok
    rcases henc : s.opt_encryption_key with _ | ek <;>
      simp [get_connection_params, Except.map, hne, hrem, hsync, htok, henc]
  · intro hat tok htok
    rcases henc : s.opt_encryption_key with _ | ek <;>
      simp [get_connection_params, Except.map, hne, hrem, hsync, hat, htok, henc]

/-- C4 (witness): a remote NAME with `auth_token` in OPTIONS and no
`sync_url`. -/
theorem C4_witness :
    (get_connection_params c4_settings no_turso).map (fun k => k.database) =
      Except.ok (some "https://db.example.com") ∧
    (get_connection_params c4_settings no_turso).map (fun k => k.auth_token) =
      Except.ok (some "tok") := by
  obtain ⟨h1, h2, _⟩ := C4_remote_mode_auth_forwarded c4_settings no_turso (by decide) rfl
  exact ⟨h1, h2 "tok" rfl⟩

/-- C5: `LibSQLCursor.execute` issues exactly one `BEGIN` before a DML
statement when the isolation level is not `None` and the client reports no
active transaction; in every other case it issues the statement alone. -/
theorem C5_dml_implicit_begin (iso : Option String) (intx : Bool) (sql : List Char) :
    (is_dml sql = true → iso ≠ none → intx = false →
        execute_stmts iso intx sql = ["BEGIN".toList, sql]) ∧
    (is_dml sql = false ∨ iso = none ∨ intx = true →
        execute_stmts iso intx sql = [sql]) := by
  constructor
  · intro hdml hiso hintx
    subst hintx
    have hs : iso.isSome = true := Option.isSome_iff_ne_none.mpr hiso
    simp [execute_stmts, hdml, hs]
  · intro h
    rcases h with h | h | h
    · simp [execute_stmts, h]
    · subst h; simp [execute_stmts]
    · subst h; simp [execute_stmts]

/-- C5 (witness): an INSERT in manual mode with no active transaction gets a
`BEGIN`; the same INSERT in autocommit mode does not. -/
theorem C5_witness :
    is_dml "INSERT INTO t VALUES (1)".toList = true ∧
    execute_stmts (some "DEFERRED") false "INSERT INTO t VALUES (1)".toList =
      ["BEGIN".toList, "INSERT INTO t VALUES (1)".toList] ∧
    execute_stmts none false "INSERT INTO t VALUES (1)".toList =
      ["INSERT INTO t VALUES (1)".toList] :=
  ⟨by decide,
   (C5_dml_implicit_begin (some "DEFERRED") false "INSERT INTO t VALUES (1)".toList).1
     (by decide) (by decide) rfl,
   (C5_dml_implicit_begin none false "INSERT INTO t VALUES (1)".toList).2
     (Or.inr (Or.inl rfl))⟩

/-- C6: with the isolation level `None` (autocommit mode), `commit` and
`rollback` are no-ops: whatever the underlying client's commit/rollback
behaviour would be, it is never invoked and every field of the wrapper state,
including the tracked transaction flag, is unchanged. -/
theorem C6_autocommit_noop (cc cr : Client → Client) (s : LibSQLConn)
    (h : s.isolation_level = none) :
    conn_commit cc s = s ∧ conn_rollback cr s = s := by
  constructor <;> simp [conn_commit, conn_rollback, h]

/-- C6 (witness): a concrete autocommit-mode state is unchanged even under
client operations that would change the transaction state. -/
theorem C6_witness :
    conn_commit (fun _ => { in_transaction := false }) c6_conn = c6_conn ∧
    conn_rollback (fun _ => { in_transaction := false }) c6_conn = c6_conn :=
  C6_autocommit_noop (fun _ => { in_transaction := false })
    (fun _ => { in_transaction := false }) c6_conn rfl

/-- C7 (counterexample): an adapter application failure DOES propagate to the
caller of `execute`: with an `int` adapter that raises, the adapter step of
`execute` raises instead of using the original value. -/
theorem C7_counterexample :
    execute_adapt c7_adapters [PyVal.vint 1] = Except.error "adapter failed" ∧
    (execute_adapt c7_adapters [PyVal.vint 1]).isOk = false := by
  constructor <;> rfl

/-- C7 (amended): converter application failures are swallowed — a raising
converter leaves the column value unchanged, so fetches never propagate
converter exceptions — but adapter application failures propagate out of the
adapter step of `execute` unchanged. -/
theorem C7_converter_swallowed_adapter_raises (convs : ConverterTable)
    (colName : String) (v : PyVal) (f : PyFun) (e : String)
    (adapters : AdapterTable) (p : PyVal) (g : PyFun) (e2 : String) :
    (find_converter convs colName = some f → f v = Except.error e →
        convert_value convs colName v = v) ∧
    (find_adapter adapters p = some g → g p = Except.error e2 →
        adapt_param adapters p = Except.error e2) := by
  constructor
  · intro h1 h2
    unfold convert_value
    split_ifs
    · simp [h1, h2]
    · rfl
  · intro h1 h2
    unfold adapt_param
    simp [h1, h2]

/-- C7 (witness): the raising `date` converter leaves the value in place; the
raising `int` adapter propagates its error. -/
theorem C7_witness :
    convert_value c7_converters "created [date]" (PyVal.vstr "2024-01-01") =
      PyVal.vstr "2024-01-01" ∧
    adapt_param c7_adapters (PyVal.vint 1) = Except.error "adapter failed" := by
  constructor
  · exact (C7_converter_swallowed_adapter_raises c7_converters "created [date]"
      (PyVal.vstr "2024-01-01") (fun _ => Except.error "converter failed")
      "converter failed" c7_adapters (PyVal.vint 1)
      (fun _ => Except.error "adapter failed") "adapter failed").1 rfl rfl
  · exact (C7_converter_swallowed_adapter_raises c7_converters "created [date]"
      (PyVal.vstr "2024-01-01") (fun _ => Except.error "converter failed")
      "converter failed" c7_adapters (PyVal.vint 1)
      (fun _ => Except.error "adapter failed") "adapter failed").2 rfl rfl

/-- C8 (counterexample): in autocommit mode `commit` is a no-op, so after a
completed `commit` the tracked flag can differ from the client's reported
transaction state: from the reachable state where the client is inside a
transaction (opened by `_start_transaction_under_autocommit`) but the flag is
`False`, the flag still disagrees after `commit`. -/
theorem C8_counterexample :
    ¬ ((conn_commit (fun c => c) c8_conn).in_transaction_flag =
        (conn_commit (fun c => c) c8_conn).client.in_transaction) := by decide

/-- C8 (amended): after every completed `commit` or `rollback` performed
while the isolation level is not `None`, the wrapper's tracked transaction
flag equals the transaction state reported by the underlying client,
whatever the client's commit/rollback behaviour is. -/
theorem C8_flag_synced_in_manual_mode (cc cr : Client → Client) (s : LibSQLConn)
    (h : s.isolation_level ≠ none) :
    (conn_commit cc s).in_transaction_flag =
      (conn_commit cc s).client.in_transaction ∧
    (conn_rollback cr s).in_transaction_flag =
      (conn_rollback cr s).client.in_transaction := by
  constructor <;> simp [conn_commit, conn_rollback, h]

/-- C8 (witness): the amended statement on a concrete manual-mode state with
a client commit/rollback that closes the transaction. -/
theorem C8_witness :
    (conn_commit (fun _ => { in_transaction := false }) c8_manual_conn).in_transaction_flag =
      (conn_commit (fun _ => { in_transaction := false }) c8_manual_conn).client.in_transaction ∧
    (conn_rollback (fun _ => { in_transaction := false }) c8_manual_conn).in_transaction_flag =
      (conn_rollback (fun _ => { in_transaction := false }) c8_manual_conn).client.in_transaction :=
  C8_flag_synced_in_manual_mode (fun _ => { in_transaction := false })
    (fun _ => { in_transaction := false }) c8_manual_conn (by decide)

/-- C9: when the connection kwargs contain `_turso_url`, the derived client
parameters are overridden to embedded-replica mode: `database` is the
`local_file` kwarg (default `"local.db"`), `sync_url` is the injected URL,
and when `_turso_auth_token` is present `auth_token` is the injected token,
overriding whatever was derived before. -/
theorem C9_turso_override (k : ConnKwargs) (u : String) (hu : k.turso_url = some u) :
    (conn_client_params k).database = (k.local_file).getD "local.db" ∧
    (conn_client_params k).sync_url = some u ∧
    (∀ tok, k.turso_auth_token = some tok →
      (conn_client_params k).auth_token = some tok) := by
  refine ⟨?_, ?_, ?_⟩
  · simp [conn_client_params, hu]
  · simp [conn_client_params, hu]
  · intro tok htok
    simp [conn_client_params, hu, htok]

/-- C9 (witness): kwargs that had derived a remote database are overridden to
`local.db` with the injected sync URL and token. -/
theorem C9_witness :
    (conn_client_params c9_kwargs).database = "local.db" ∧
    (conn_client_params c9_kwargs).sync_url = some "libsql://replica.example.com" ∧
    (conn_client_params c9_kwargs).auth_token = some "tok2" := by
  obtain ⟨h1, h2, h3⟩ := C9_turso_override c9_kwargs "libsql://replica.example.com" rfl
  exact ⟨h1, h2, h3 "tok2" rfl⟩

/-- C10: `fetchmany n` returns at most `n` rows — exactly
`min n (remaining rows)` — and returns fewer than `n` exactly when the
stream is exhausted first; with no size argument it uses `arraysize`,
initialised to `100`. -/
theorem C10_fetchmany_bounds (convs : ConverterTable) (desc : Option (List String))
    (n : Nat) (rows : List (List PyVal)) :
    ((fetchmany convs desc n rows).1).length ≤ n ∧
    ((fetchmany convs desc n rows).1).length = min n rows.length ∧
    (((fetchmany convs desc n rows).1).length < n ↔ rows.length < n) ∧
    cursor_init_arraysize = 100 ∧
    fetchmany_default convs desc rows = fetchmany convs desc 100 rows := by
  have hlen := fetchmany_length convs desc n rows
  refine ⟨?_, hlen, ?_, rfl, rfl⟩
  · rw [hlen]; omega
  · rw [hlen]; omega

end DjangoLibsql

